import Mathlib

/-!
Shallow embedding of the xterm terminal driver (`src/termdriver-xterm.c`
of the Tickit distribution) and proofs about its encoding and
capability-negotiation logic.

Conventions of the embedding:
* Every call the C code makes to `tickit_termdrv_write_str` /
  `tickit_termdrv_write_strf` becomes one `String` element of an output
  list (`List String`), in emission order.  "Emits zero bytes" is the
  empty list.
* C `int` becomes `Int`; the coordinate sentinel `-1` is kept as is.
* The driver state `struct XTermDriver` (its `mode` and `cap` bitfields)
  becomes a structure of `Bool`s.  Functions that mutate it return the
  new state explicitly.
* Escape bytes are written with `\x1b`; formatted writes (`%d`) become
  `toString` on `Int`.
-/

/-- The `mode` and `cap` bitfields of `struct XTermDriver`. -/
structure XTermDriver where
  altscreen : Bool
  cursorvis : Bool
  cursorblink : Bool
  mouse : Bool
  keypad : Bool
  bce : Bool
  slrm : Bool
deriving DecidableEq, Repr

/-- The `TickitTermCtl` identifiers handled by `setctl_int`; `other`
stands for every identifier that falls to the `default:` branch. -/
inductive TickitTermCtl where
  | altscreen
  | cursorvis
  | cursorblink
  | mouse
  | cursorshape
  | keypad_app
  | other
deriving DecidableEq, Repr

/-- Result of `setctl_int`: the C return value, the writes performed,
and the driver state afterwards. -/
structure CtlResult where
  handled : Bool
  out : List String
  st : XTermDriver
deriving DecidableEq, Repr

/-- `goto_abs` from the source: absolute cursor addressing, each
coordinate either the sentinel `-1` or a 0-based value. -/
def goto_abs (line col : Int) : List String :=
  if line ≠ -1 ∧ col > 0 then
    ["\x1b[" ++ toString (line + 1) ++ ";" ++ toString (col + 1) ++ "H"]
  else if line ≠ -1 ∧ col = 0 then
    ["\x1b[" ++ toString (line + 1) ++ "H"]
  else if line ≠ -1 then
    ["\x1b[" ++ toString (line + 1) ++ "d"]
  else if col > 0 then
    ["\x1b[" ++ toString (col + 1) ++ "G"]
  else if col ≠ -1 then
    ["\x1b[G"]
  else []

/-- `move_rel` from the source: relative cursor movement, vertical part
first, then horizontal, each with a magnitude-1 short form. -/
def move_rel (downward rightward : Int) : List String :=
  (if downward > 1 then ["\x1b[" ++ toString downward ++ "B"]
   else if downward = 1 then ["\x1b[B"]
   else if downward = -1 then ["\x1b[A"]
   else if downward < -1 then ["\x1b[" ++ toString (-downward) ++ "A"]
   else []) ++
  (if rightward > 1 then ["\x1b[" ++ toString rightward ++ "C"]
   else if rightward = 1 then ["\x1b[C"]
   else if rightward = -1 then ["\x1b[D"]
   else if rightward < -1 then ["\x1b[" ++ toString (-rightward) ++ "D"]
   else [])

/-- A run of `n` blank characters, as written by the manual-overwrite
branch of `erasech` (the C code `memset`s a 64-byte space buffer). -/
def spaces (n : Nat) : String :=
  String.mk (List.replicate n ' ')

/-- The `while(count > 64)` loop of `erasech` followed by the final
write of the remaining count: the sequence of space-run writes.  The
first argument is fuel bounding the number of loop iterations; the loop
runs at most `count` times (it needs `count > 64` and subtracts 64 each
time), so `erasech` calls it with fuel `count`. -/
def eraseWritesGo : Nat → Nat → List String
  | 0, count => [spaces count]
  | fuel + 1, count =>
    if count > 64 then spaces 64 :: eraseWritesGo fuel (count - 64)
    else [spaces count]

/-- The value the local variable `count` of `erasech` holds after the
`while(count > 64)` loop (the C code mutates `count` in place). -/
def eraseResidualGo : Nat → Nat → Nat
  | 0, count => count
  | fuel + 1, count =>
    if count > 64 then eraseResidualGo fuel (count - 64)
    else count

/-- `erasech` from the source.  `penReverse` is the result of the core
call `tickit_pen_get_bool_attr(..., TICKIT_PEN_REVERSE)` on the current
pen (the pen itself lives in the core, outside this driver).  Output
only; `erasech` never touches the driver state. -/
def erasech (d : XTermDriver) (penReverse : Bool) (count moveend : Int) : List String :=
  if count < 1 then []
  else if d.bce ∧ ¬penReverse then
    (if count = 1 then ["\x1b[X"]
     else ["\x1b[" ++ toString count ++ "X"]) ++
    (if moveend = 1 then move_rel 0 count else [])
  else
    eraseWritesGo count.toNat count.toNat ++
    (if moveend = 0 then
       move_rel 0 (-(eraseResidualGo count.toNat count.toNat : Int))
     else [])

/-- `ttd_clear` from the source. -/
def ttd_clear : List String :=
  ["\x1b[2J"]

/-- The per-row character insert/delete write of `scrollrect`'s first
strategy (DCH/DCH1/ICH1/ICH, lines 104-111 of the source). -/
def scrollrect_chdel (rightward : Int) : List String :=
  if rightward > 1 then ["\x1b[" ++ toString rightward ++ "@"]
  else if rightward = 1 then ["\x1b[@"]
  else if rightward = -1 then ["\x1b[P"]
  else if rightward < -1 then ["\x1b[" ++ toString (-rightward) ++ "P"]
  else []

/-- One iteration of the `for(line = top; ...)` loop in `scrollrect`'s
first strategy.  Note that the margin-restore write (`ESC[s`, guarded by
`left + cols < term_cols`) sits inside the loop body in the source (its
`if` is misindented but is within the loop's braces). -/
def scrollrect_row (term_cols left cols rightward line : Int) : List String :=
  goto_abs line left ++
  scrollrect_chdel rightward ++
  (if left + cols < term_cols then ["\x1b[s"] else [])

/-- The line insert/delete write of `scrollrect`'s second strategy
(DL/DL1/IL1/IL). -/
def scrollrect_dlil (downward : Int) : List String :=
  if downward > 1 then ["\x1b[" ++ toString downward ++ "M"]
  else if downward = 1 then ["\x1b[M"]
  else if downward = -1 then ["\x1b[L"]
  else if downward < -1 then ["\x1b[" ++ toString (-downward) ++ "L"]
  else []

/-- The column insert/delete write of `scrollrect`'s second strategy
(DECDC/DECDC1/DECIC1/DECIC).  The source's last arm is a separate `if`,
not an `else if`; it is mirrored here as the second operand of `++`. -/
def scrollrect_dcic (rightward : Int) : List String :=
  (if rightward > 1 then ["\x1b[" ++ toString rightward ++ "\x27~"]
   else if rightward = 1 then ["\x1b[\x27~"]
   else if rightward = -1 then ["\x1b[\x27\x7d"]
   else []) ++
  (if rightward < -1 then ["\x1b[" ++ toString (-rightward) ++ "\x27\x7d"] else [])

/-- `scrollrect` from the source.  `term_cols` is the width the core
reports through `tickit_term_get_size`.  Returns the C return value and
the writes; `scrollrect` never touches the driver state. -/
def scrollrect (d : XTermDriver) (term_cols top left lines cols downward rightward : Int) :
    Bool × List String :=
  if downward = 0 ∧ rightward = 0 then (true, [])
  else if ((d.slrm ∧ lines = 1) ∨ left + cols = term_cols) ∧ downward = 0 then
    (true,
     (if left + cols < term_cols then
        ["\x1b[;" ++ toString (left + cols) ++ "s"]
      else []) ++
     ((List.range lines.toNat).map
        (fun i => scrollrect_row term_cols left cols rightward (top + i))).flatten)
  else if d.slrm ∨ (left = 0 ∧ cols = term_cols ∧ rightward = 0) then
    (true,
     ["\x1b[" ++ toString (top + 1) ++ ";" ++ toString (top + lines) ++ "r"] ++
     (if left > 0 ∨ left + cols < term_cols then
        ["\x1b[" ++ toString (left + 1) ++ ";" ++ toString (left + cols) ++ "s"]
      else []) ++
     goto_abs top left ++
     scrollrect_dlil downward ++
     scrollrect_dcic rightward ++
     ["\x1b[r"] ++
     (if left > 0 ∨ left + cols < term_cols then ["\x1b[s"] else []))
  else (false, [])

/-- The pen attributes in the order of the `TickitPenAttr` enumeration
(which is also the iteration order of `chpen`'s loop and the index order
of the `sgr_onoff` table). -/
inductive TickitPenAttr where
  | fg
  | bg
  | bold
  | under
  | italic
  | reverse
  | strike
  | altfont
deriving DecidableEq, Repr

/-- A pen restricted to what `chpen` reads from its `delta` argument:
for each attribute, whether `tickit_pen_has_attr` holds and, if so, the
value the corresponding getter returns. -/
structure Pen where
  fg : Option Int
  bg : Option Int
  bold : Option Bool
  under : Option Bool
  italic : Option Bool
  reverse : Option Bool
  strike : Option Bool
  altfont : Option Int
deriving DecidableEq, Repr

/-- `tickit_pen_has_attr` on the attributes `chpen` iterates over. -/
def tickit_pen_has_attr (p : Pen) (a : TickitPenAttr) : Bool :=
  match a with
  | .fg => p.fg.isSome
  | .bg => p.bg.isSome
  | .bold => p.bold.isSome
  | .under => p.under.isSome
  | .italic => p.italic.isSome
  | .reverse => p.reverse.isSome
  | .strike => p.strike.isSome
  | .altfont => p.altfont.isSome

/-- The `sgr_onoff` table: (on, off) SGR codes indexed by attribute. -/
def sgr_onoff : TickitPenAttr → Int × Int
  | .fg => (30, 39)
  | .bg => (40, 49)
  | .bold => (1, 22)
  | .under => (4, 24)
  | .italic => (3, 23)
  | .reverse => (7, 27)
  | .strike => (9, 29)
  | .altfont => (10, 10)

/-- The parameters `chpen` pushes for a colour attribute.  The C code
tags the first two parameters of the extended form with bit `0x80000000`
(masked off again when rendering); the tag is modelled as the `Bool`
component and the rendering ignores it, as the source does. -/
def chpen_colour_params (onoff : Int × Int) (val : Int) : List (Bool × Int) :=
  if val < 0 then [(false, onoff.2)]
  else if val < 8 then [(false, onoff.1 + val)]
  else if val < 16 then [(false, onoff.1 + 60 + val - 8)]
  else [(true, onoff.1 + 8), (true, 5), (false, val)]

/-- The parameter `chpen` pushes for the alternate-font attribute. -/
def chpen_altfont_params (onoff : Int × Int) (val : Int) : List (Bool × Int) :=
  if val < 0 ∨ 10 ≤ val then [(false, onoff.2)]
  else [(false, onoff.1 + val)]

/-- The parameter `chpen` pushes for a boolean attribute. -/
def chpen_bool_params (onoff : Int × Int) (val : Bool) : List (Bool × Int) :=
  [(false, if val then onoff.1 else onoff.2)]

/-- The parameters one iteration of `chpen`'s attribute loop appends for
attribute `a` of `delta` (nothing when the attribute is absent). -/
def chpen_attr_params (delta : Pen) (a : TickitPenAttr) : List (Bool × Int) :=
  match a with
  | .fg => match delta.fg with
    | none => []
    | some v => chpen_colour_params (sgr_onoff .fg) v
  | .bg => match delta.bg with
    | none => []
    | some v => chpen_colour_params (sgr_onoff .bg) v
  | .bold => match delta.bold with
    | none => []
    | some v => chpen_bool_params (sgr_onoff .bold) v
  | .under => match delta.under with
    | none => []
    | some v => chpen_bool_params (sgr_onoff .under) v
  | .italic => match delta.italic with
    | none => []
    | some v => chpen_bool_params (sgr_onoff .italic) v
  | .reverse => match delta.reverse with
    | none => []
    | some v => chpen_bool_params (sgr_onoff .reverse) v
  | .strike => match delta.strike with
    | none => []
    | some v => chpen_bool_params (sgr_onoff .strike) v
  | .altfont => match delta.altfont with
    | none => []
    | some v => chpen_altfont_params (sgr_onoff .altfont) v

/-- The iteration order of `chpen`'s loop `for(attr = 0; attr <
TICKIT_N_PEN_ATTRS; attr++)`. -/
def penAttrOrder : List TickitPenAttr :=
  [.fg, .bg, .bold, .under, .italic, .reverse, .strike, .altfont]

/-- The full `params[]` array `chpen` accumulates for `delta`. -/
def chpen_params (delta : Pen) : List (Bool × Int) :=
  (penAttrOrder.map (chpen_attr_params delta)).flatten

/-- `chpen` from the source.  `finalNondefault` is the result of the
core call `tickit_pen_is_nondefault(final)` (the final pen itself lives
in the core; `chpen` consults it only through that predicate).  The
render loop joins the parameters, each masked down to its numeric value,
with `;` between `\x1b[` and `m`; with zero parameters that yields the
bare reset `\x1b[m`. -/
def chpen (delta : Pen) (finalNondefault : Bool) : List String :=
  let params := chpen_params delta
  if params = [] then []
  else
    let params := if finalNondefault then params else []
    ["\x1b[" ++ String.intercalate ";" (params.map (fun p => toString p.2)) ++ "m"]

/-- `setctl_int` from the source.  `value` is the requested value; the C
truthiness comparison `!flag == !value` is `flag = (value ≠ 0)`.  Note
that the `TICKIT_TERMCTL_KEYPAD_APP` arm emits its sequence without
updating `mode.keypad`, exactly as the source does. -/
def setctl_int (d : XTermDriver) (ctl : TickitTermCtl) (value : Int) : CtlResult :=
  match ctl with
  | .altscreen =>
    if d.altscreen = (value ≠ 0) then ⟨true, [], d⟩
    else ⟨true, [if value ≠ 0 then "\x1b[?1049h" else "\x1b[?1049l"],
          { d with altscreen := value ≠ 0 }⟩
  | .cursorvis =>
    if d.cursorvis = (value ≠ 0) then ⟨true, [], d⟩
    else ⟨true, [if value ≠ 0 then "\x1b[?25h" else "\x1b[?25l"],
          { d with cursorvis := value ≠ 0 }⟩
  | .cursorblink =>
    ⟨true, [if value ≠ 0 then "\x1b[?12h" else "\x1b[?12l"],
     { d with cursorblink := value ≠ 0 }⟩
  | .mouse =>
    if d.mouse = (value ≠ 0) then ⟨true, [], d⟩
    else ⟨true, [if value ≠ 0 then "\x1b[?1002h\x1b[?1006h" else "\x1b[?1002l\x1b[?1006l"],
          { d with mouse := value ≠ 0 }⟩
  | .cursorshape =>
    ⟨true, ["\x1b[" ++ toString (value * 2 + (if d.cursorblink then -1 else 0)) ++ " q"], d⟩
  | .keypad_app =>
    if d.keypad = (value ≠ 0) then ⟨true, [], d⟩
    else ⟨true, [if value ≠ 0 then "\x1b=" else "\x1b>"], d⟩
  | .other => ⟨false, [], d⟩

/-- The string-valued controls of `setctl_str`. -/
inductive TickitTermStrCtl where
  | icon_text
  | title_text
  | icontitle_text
  | other
deriving DecidableEq, Repr

/-- `setctl_str` from the source: OSC sequences wrapping the payload. -/
def setctl_str (ctl : TickitTermStrCtl) (value : String) : Bool × List String :=
  match ctl with
  | .icon_text => (true, ["\x1b]1;" ++ value ++ "\x1b\\"])
  | .title_text => (true, ["\x1b]2;" ++ value ++ "\x1b\\"])
  | .icontitle_text => (true, ["\x1b]0;" ++ value ++ "\x1b\\"])
  | .other => (false, [])

/-- `start` from the source: enable DECSLRM, then query its support. -/
def start : List String :=
  ["\x1b[?69h", "\x1b[?69\x24p"]

/-- The decoded key events `gotkey` can observe: a mode report
(`termkey_interpret_modereport` yields the initial character, the mode
number and the reported value) or anything else. -/
inductive KeyEvent where
  | modereport (initial : Char) (mode value : Int)
  | otherkey
deriving DecidableEq, Repr

/-- `gotkey` from the source: on a DEC mode report for mode 69 (DECVSSM)
with reported value 1 or 2, latch `cap.slrm`; otherwise do nothing. -/
def gotkey (d : XTermDriver) (k : KeyEvent) : XTermDriver :=
  match k with
  | .modereport initial mode value =>
    if initial = '?' then
      if mode = 69 then
        if value = 1 ∨ value = 2 then { d with slrm := true } else d
      else d
    else d
  | .otherkey => d

/-- `stop` from the source: conditionally restore mouse, cursor
visibility, alternate screen and keypad, in that order, re-reading the
(updated) state before each step. -/
def stop (d : XTermDriver) : List String × XTermDriver :=
  let r1 := if d.mouse then setctl_int d .mouse 0 else ⟨true, [], d⟩
  let r2 := if ¬r1.st.cursorvis then setctl_int r1.st .cursorvis 1 else ⟨true, [], r1.st⟩
  let r3 := if r2.st.altscreen then setctl_int r2.st .altscreen 0 else ⟨true, [], r2.st⟩
  let r4 := if r3.st.keypad then setctl_int r3.st .keypad_app 0 else ⟨true, [], r3.st⟩
  (r1.out ++ r2.out ++ r3.out ++ r4.out, r4.st)

/-- `new` from the source: the freshly constructed driver state.  The C
code `malloc`s the structure and then assigns only `mode.altscreen`,
`mode.cursorvis`, `mode.mouse`, `cap.bce` and `cap.slrm`;
`mode.cursorblink` and `mode.keypad` stay uninitialized and are taken
here as arbitrary parameters, as is the `cap.bce` seed that the
terminfo/unibilium lookup may overwrite. -/
def new (bceSeed blinkInit keypadInit : Bool) : XTermDriver :=
  { altscreen := false
    cursorvis := true
    cursorblink := blinkInit
    mouse := false
    keypad := keypadInit
    bce := bceSeed
    slrm := false }


/-- The driver operations of the vtable (plus the key-event delivery),
with the arguments each takes in the embedding.  `step` below gives the
effect of each one on the driver state. -/
inductive Op where
  | print (text : String)
  | goto_abs (line col : Int)
  | move_rel (downward rightward : Int)
  | scrollrect (term_cols top left lines cols downward rightward : Int)
  | erasech (penReverse : Bool) (count moveend : Int)
  | clear
  | chpen (delta : Pen) (finalNondefault : Bool)
  | setctl_int (ctl : TickitTermCtl) (value : Int)
  | setctl_str (ctl : TickitTermStrCtl) (value : String)
  | start
  | stop
  | gotkey (k : KeyEvent)

/-- The driver state after one operation.  In the source only
`setctl_int` (hence also `stop`) and `gotkey` write to the
`struct XTermDriver`; every other vtable function only emits bytes. -/
def step (d : XTermDriver) : Op → XTermDriver
  | .print _ => d
  | .goto_abs _ _ => d
  | .move_rel _ _ => d
  | .scrollrect _ _ _ _ _ _ _ => d
  | .erasech _ _ _ => d
  | .clear => d
  | .chpen _ _ => d
  | .setctl_int ctl value => (setctl_int d ctl value).st
  | .setctl_str _ _ => d
  | .start => d
  | .stop => (stop d).2
  | .gotkey k => gotkey d k

lemma setctl_int_st_slrm (d : XTermDriver) (ctl : TickitTermCtl) (value : Int) :
    (setctl_int d ctl value).st.slrm = d.slrm := by
  cases ctl <;> simp only [setctl_int] <;> split_ifs <;> rfl

lemma stop_st_slrm (d : XTermDriver) : (stop d).2.slrm = d.slrm := by
  unfold stop
  dsimp only
  split_ifs <;> simp [setctl_int_st_slrm]

lemma step_preserves_slrm (d : XTermDriver) (op : Op) (h : d.slrm = true) :
    (step d op).slrm = true := by
  cases op with
  | setctl_int ctl value => simpa [step, setctl_int_st_slrm] using h
  | stop => simpa [step, stop_st_slrm] using h
  | gotkey k =>
    cases k with
    | modereport initial mode value =>
      simp only [step, gotkey]
      split_ifs <;> simp [h]
    | otherkey => simpa [step, gotkey] using h
  | _ => simpa [step] using h

/-- C4: the `scroll-margins-supported` capability (`cap.slrm`) starts
false at construction, stays true under every further operation once it
is true, and the only single step that raises it from false to true is
delivery of a DEC mode report (initial `?`) for mode 69 with reported
value 1 or 2. -/
theorem slrm_monotone :
    (∀ bceSeed blinkInit keypadInit,
      (new bceSeed blinkInit keypadInit).slrm = false) ∧
    (∀ (d : XTermDriver) (ops : List Op), d.slrm = true →
      (ops.foldl step d).slrm = true) ∧
    (∀ (d : XTermDriver) (op : Op), d.slrm = false → (step d op).slrm = true →
      ∃ mo v, op = Op.gotkey (KeyEvent.modereport '?' mo v) ∧ mo = 69 ∧
        (v = 1 ∨ v = 2)) := by
  refine ⟨fun _ _ _ => rfl, ?_, ?_⟩
  · intro d ops h
    induction ops generalizing d with
    | nil => exact h
    | cons op rest ih => exact ih (step d op) (step_preserves_slrm d op h)
  · intro d op h0 h1
    cases op with
    | setctl_int ctl value =>
      rw [step, setctl_int_st_slrm, h0] at h1
      exact absurd h1 (by simp)
    | stop =>
      rw [step, stop_st_slrm, h0] at h1
      exact absurd h1 (by simp)
    | gotkey k =>
      cases k with
      | modereport initial mode value =>
        simp only [step, gotkey] at h1
        split_ifs at h1 with hi hm hv
        · exact ⟨mode, value, by rw [hi], hm, hv⟩
        all_goals exact absurd (h0 ▸ h1) (by simp)
      | otherkey =>
        rw [step, gotkey, h0] at h1
        exact absurd h1 (by simp)
    | _ =>
      rw [step, h0] at h1
      exact absurd h1 (by simp)

/-- A driver state with every latch set, used to exercise theorems with
hypotheses at a concrete state. -/
def dAllOn : XTermDriver :=
  ⟨true, false, true, true, true, true, true⟩

/-- Witness for C4: concrete applications of `slrm_monotone` with its
hypotheses discharged. -/
theorem slrm_monotone_witness :
    (([Op.stop, Op.clear, Op.gotkey KeyEvent.otherkey].foldl step dAllOn).slrm = true) ∧
    (∃ mo v,
      Op.gotkey (KeyEvent.modereport '?' 69 2)
        = Op.gotkey (KeyEvent.modereport '?' mo v) ∧ mo = 69 ∧ (v = 1 ∨ v = 2)) :=
  ⟨slrm_monotone.2.1 dAllOn [Op.stop, Op.clear, Op.gotkey KeyEvent.otherkey] rfl,
   slrm_monotone.2.2 (new true false false)
     (Op.gotkey (KeyEvent.modereport '?' 69 2)) rfl (by decide)⟩

lemma ne_of_last_ne (y : String) (c : Char) (hc : c ≠ 's') :
    y ++ String.singleton c ≠ "\x1b[s" := by
  intro h
  have hd : (y ++ String.singleton c).data = ("\x1b[s" : String).data := by rw [h]
  rw [String.data_append] at hd
  have hlast := congrArg List.getLast? hd
  simp [String.singleton] at hlast
  exact hc hlast

lemma restore_not_mem_goto_abs (line col : Int) : "\x1b[s" ∉ goto_abs line col := by
  intro hmem
  unfold goto_abs at hmem
  split_ifs at hmem <;>
    simp only [List.mem_singleton, List.not_mem_nil] at hmem
  · exact ne_of_last_ne _ 'H' (by decide) hmem.symm
  · exact ne_of_last_ne _ 'H' (by decide) hmem.symm
  · exact ne_of_last_ne _ 'd' (by decide) hmem.symm
  · exact ne_of_last_ne _ 'G' (by decide) hmem.symm
  · exact absurd hmem (by decide)

lemma restore_not_mem_chdel (rightward : Int) : "\x1b[s" ∉ scrollrect_chdel rightward := by
  intro hmem
  unfold scrollrect_chdel at hmem
  split_ifs at hmem <;>
    simp only [List.mem_singleton, List.not_mem_nil] at hmem
  · exact ne_of_last_ne _ '@' (by decide) hmem.symm
  · exact absurd hmem (by decide)
  · exact absurd hmem (by decide)
  · exact ne_of_last_ne _ 'P' (by decide) hmem.symm

/-- C3: in `scrollrect`'s single-axis horizontal strategy with a
rectangle short of the terminal's right edge (which forces
`cap.slrm && lines == 1`, the only way that strategy admits such a
rectangle), the emitted writes are: the right-margin narrowing once,
then the per-row cursor positioning and character insert/delete, then
the margin restore `ESC[s` exactly once at the end — `ESC[s` occurs
nowhere among the per-row writes. -/
theorem scrollrect_restore_once
    (d : XTermDriver) (term_cols top left lines cols rightward : Int)
    (helig : (d.slrm = true ∧ lines = 1) ∨ left + cols = term_cols)
    (hedge : left + cols < term_cols)
    (hr : rightward ≠ 0) :
    (scrollrect d term_cols top left lines cols 0 rightward).2
      = ["\x1b[;" ++ toString (left + cols) ++ "s"]
        ++ (goto_abs top left ++ scrollrect_chdel rightward)
        ++ ["\x1b[s"]
    ∧ "\x1b[s" ∉ goto_abs top left ++ scrollrect_chdel rightward := by
  obtain ⟨hs, hl⟩ := helig.resolve_right (by omega)
  constructor
  · subst hl
    unfold scrollrect
    rw [if_neg (by simp [hr]), if_pos ⟨Or.inl ⟨hs, rfl⟩, rfl⟩]
    show _ ++ _ = _
    rw [if_pos hedge]
    rw [show List.range (1 : Int).toNat = [0] from rfl]
    simp only [List.map_cons, List.map_nil, List.flatten_cons, List.flatten_nil,
      List.append_nil, Nat.cast_zero, add_zero, scrollrect_row]
    rw [if_pos hedge]
    simp [List.append_assoc]
  · intro hmem
    rcases List.mem_append.mp hmem with h | h
    · exact restore_not_mem_goto_abs top left h
    · exact restore_not_mem_chdel rightward h

/-- Witness for C3: `scrollrect_restore_once` at a concrete request
(margins supported, one row at (3,10) width 20 on an 80-column
terminal, shifted right by 2). -/
theorem scrollrect_restore_once_witness :
    (scrollrect dAllOn 80 3 10 1 20 0 2).2
      = ["\x1b[;30s"] ++ (goto_abs 3 10 ++ scrollrect_chdel 2) ++ ["\x1b[s"]
    ∧ "\x1b[s" ∉ goto_abs 3 10 ++ scrollrect_chdel 2 := by
  have h := scrollrect_restore_once dAllOn 80 3 10 1 20 2
    (Or.inl ⟨rfl, rfl⟩) (by decide) (by decide)
  simpa using h

/-- C5: with scroll margins unsupported, a rectangle whose right edge
does not coincide with the terminal's right edge, more than one row, and
a nonzero horizontal displacement, `scrollrect` declines: it returns 0
and performs no writes (and, the embedding's `scrollrect` having no
state component at all, leaves the driver state untouched). -/
theorem scrollrect_declines
    (d : XTermDriver) (term_cols top left lines cols downward rightward : Int)
    (hslrm : d.slrm = false)
    (hedge : left + cols ≠ term_cols)
    (_hlines : 1 < lines)
    (hr : rightward ≠ 0) :
    scrollrect d term_cols top left lines cols downward rightward = (false, []) := by
  unfold scrollrect
  rw [if_neg (by simp [hr]), if_neg (by simp [hslrm, hedge]),
    if_neg (by simp [hslrm, hr])]

/-- Witness for C5: `scrollrect_declines` on a fresh driver, a 3-row
rectangle of width 20 at the origin of an 80-column terminal, shifted
right by 2. -/
theorem scrollrect_declines_witness :
    scrollrect (new true false false) 80 0 0 3 20 0 2 = (false, []) :=
  scrollrect_declines (new true false false) 80 0 0 3 20 0 2 rfl
    (by decide) (by decide) (by decide)

/-- C6: `goto_abs` realizes the wire table: with both coordinates given
and a nonzero column it emits the full `H` form; a given line with
column 0 the short `H` form; a given line with the column unspecified
the `d` form; an unspecified line with a positive column the `G` form;
an unspecified line with column 0 the bare `ESC[G`; and nothing when
both coordinates are the `-1` sentinel. -/
theorem goto_abs_wire (line col : Int) :
    (0 ≤ line → 0 < col →
      goto_abs line col
        = ["\x1b[" ++ toString (line + 1) ++ ";" ++ toString (col + 1) ++ "H"]) ∧
    (0 ≤ line → col = 0 →
      goto_abs line col = ["\x1b[" ++ toString (line + 1) ++ "H"]) ∧
    (0 ≤ line → col = -1 →
      goto_abs line col = ["\x1b[" ++ toString (line + 1) ++ "d"]) ∧
    (line = -1 → 0 < col →
      goto_abs line col = ["\x1b[" ++ toString (col + 1) ++ "G"]) ∧
    (line = -1 → col = 0 → goto_abs line col = ["\x1b[G"]) ∧
    (line = -1 → col = -1 → goto_abs line col = []) := by
  refine ⟨?_, ?_, ?_, ?_, ?_, ?_⟩ <;> intro h1 h2 <;> unfold goto_abs
  · rw [if_pos ⟨by omega, h2⟩]
  · rw [if_neg (by omega), if_pos ⟨by omega, h2⟩]
  · rw [if_neg (by omega), if_neg (by omega), if_pos (by omega)]
  · rw [if_neg (by omega), if_neg (by omega), if_neg (by omega), if_pos h2]
  · rw [if_neg (by omega), if_neg (by omega), if_neg (by omega),
      if_neg (by omega), if_pos (by omega)]
  · rw [if_neg (by omega), if_neg (by omega), if_neg (by omega),
      if_neg (by omega), if_neg (by omega)]

/-- Witness for C6: `goto_abs_wire` at one concrete pair per sentinel
combination. -/
theorem goto_abs_wire_witness :
    goto_abs 2 4 = ["\x1b[3;5H"] ∧ goto_abs 2 0 = ["\x1b[3H"] ∧
    goto_abs 2 (-1) = ["\x1b[3d"] ∧ goto_abs (-1) 4 = ["\x1b[5G"] ∧
    goto_abs (-1) 0 = ["\x1b[G"] ∧ goto_abs (-1) (-1) = [] :=
  ⟨(goto_abs_wire 2 4).1 (by decide) (by decide),
   (goto_abs_wire 2 0).2.1 (by decide) rfl,
   (goto_abs_wire 2 (-1)).2.2.1 (by decide) rfl,
   (goto_abs_wire (-1) 4).2.2.2.1 rfl (by decide),
   (goto_abs_wire (-1) 0).2.2.2.2.1 rfl rfl,
   (goto_abs_wire (-1) (-1)).2.2.2.2.2 rfl rfl⟩

/-- C9: `stop` emits, in the fixed order mouse / cursor visibility /
alternate screen / keypad, exactly the restore sequences of the toggles
whose mode flag differs from its default: mouse off only if the mouse
flag is on, cursor shown only if the visibility flag is off, alternate
screen left only if its flag is on, keypad normalized only if its flag
is in application mode. -/
theorem stop_restores (d : XTermDriver) :
    (stop d).1 =
      (if d.mouse then ["\x1b[?1002l\x1b[?1006l"] else []) ++
      (if d.cursorvis then [] else ["\x1b[?25h"]) ++
      (if d.altscreen then ["\x1b[?1049l"] else []) ++
      (if d.keypad then ["\x1b>"] else []) := by
  obtain ⟨a, c, cb, m, k, b, s⟩ := d
  cases m <;> cases c <;> cases a <;> cases k <;> rfl

/-- C10: a freshly constructed driver has altscreen off, cursor visible,
mouse off and scroll margins unconfirmed, so the very first
`setctl_int(CURSORVIS, 1)` is handled with zero writes and an unchanged
state, whatever the uninitialized/seeded fields hold. -/
theorem new_fresh_state (bceSeed blinkInit keypadInit : Bool) :
    (new bceSeed blinkInit keypadInit).altscreen = false ∧
    (new bceSeed blinkInit keypadInit).cursorvis = true ∧
    (new bceSeed blinkInit keypadInit).mouse = false ∧
    (new bceSeed blinkInit keypadInit).slrm = false ∧
    setctl_int (new bceSeed blinkInit keypadInit) .cursorvis 1
      = ⟨true, [], new bceSeed blinkInit keypadInit⟩ :=
  ⟨rfl, rfl, rfl, rfl, rfl⟩

lemma chpen_attr_params_ne_nil (delta : Pen) (a : TickitPenAttr)
    (h : tickit_pen_has_attr delta a = true) :
    chpen_attr_params delta a ≠ [] := by
  cases a <;>
    simp only [tickit_pen_has_attr, Option.isSome_iff_exists] at h <;>
    obtain ⟨v, hv⟩ := h <;>
    simp only [chpen_attr_params, hv] <;>
    first
      | (unfold chpen_colour_params; split_ifs <;> simp)
      | (unfold chpen_altfont_params; split_ifs <;> simp)
      | simp [chpen_bool_params]

lemma chpen_params_ne_nil (delta : Pen)
    (h : ∃ a, tickit_pen_has_attr delta a = true) :
    chpen_params delta ≠ [] := by
  obtain ⟨a, ha⟩ := h
  intro hnil
  rw [chpen_params, penAttrOrder] at hnil
  simp only [List.map_cons, List.map_nil, List.flatten_cons, List.flatten_nil,
    List.append_nil, List.append_eq_nil] at hnil
  obtain ⟨h1, h2, h3, h4, h5, h6, h7, h8⟩ := hnil
  cases a with
  | fg => exact chpen_attr_params_ne_nil delta .fg ha h1
  | bg => exact chpen_attr_params_ne_nil delta .bg ha h2
  | bold => exact chpen_attr_params_ne_nil delta .bold ha h3
  | under => exact chpen_attr_params_ne_nil delta .under ha h4
  | italic => exact chpen_attr_params_ne_nil delta .italic ha h5
  | reverse => exact chpen_attr_params_ne_nil delta .reverse ha h6
  | strike => exact chpen_attr_params_ne_nil delta .strike ha h7
  | altfont => exact chpen_attr_params_ne_nil delta .altfont ha h8

/-- C7: whenever `delta` carries at least one attribute (so `chpen`
computed at least one SGR parameter) and the final pen has no
non-default attribute, `chpen` throws the computed parameters away and
emits exactly the bare reset `ESC[m`. -/
theorem chpen_bare_reset (delta : Pen)
    (h : ∃ a, tickit_pen_has_attr delta a = true) :
    chpen delta false = ["\x1b[m"] := by
  simp only [chpen]
  rw [if_neg (chpen_params_ne_nil delta h)]
  rfl

/-- Witness for C7: `chpen_bare_reset` on a delta that only switches
bold on. -/
theorem chpen_bare_reset_witness :
    chpen ⟨none, none, some true, none, none, none, none, none⟩ false = ["\x1b[m"] :=
  chpen_bare_reset ⟨none, none, some true, none, none, none, none, none⟩
    ⟨.bold, rfl⟩

/-- Counterexample to C8 as stated: from a state whose alternate-screen
flag is already on (`dAllOn`), two consecutive `setctl_int(ALTSCREEN,1)`
calls emit the enabling sequence zero times, not exactly once. -/
theorem setctl_altscreen_twice_counterexample :
    ((setctl_int dAllOn .altscreen 1).out ++
      (setctl_int (setctl_int dAllOn .altscreen 1).st .altscreen 1).out).count
        "\x1b[?1049h" ≠ 1 := by
  decide

lemma setctl_int_repeat_out (d : XTermDriver) (ctl : TickitTermCtl) (v : Int)
    (h : ctl = .altscreen ∨ ctl = .cursorvis ∨ ctl = .mouse) :
    (setctl_int (setctl_int d ctl v).st ctl v).out = [] := by
  rcases h with rfl | rfl | rfl <;>
    simp only [setctl_int] <;>
    split_ifs with h1 h2 <;>
    first
      | rfl
      | (exfalso; simp_all)

/-- C8 amended: two consecutive `setctl_int(ALTSCREEN, 1)` calls emit
the enabling sequence `ESC[?1049h` exactly once when the
alternate-screen flag starts off (from a state where it is already on,
zero emissions occur); the second call is always handled with zero
writes, and a repeated identical request for alternate-screen,
cursor-visibility or mouse is always a byte-free no-op. -/
theorem setctl_altscreen_twice (d : XTermDriver) (h : d.altscreen = false) :
    ((setctl_int d .altscreen 1).out ++
      (setctl_int (setctl_int d .altscreen 1).st .altscreen 1).out).count
        "\x1b[?1049h" = 1 ∧
    (setctl_int (setctl_int d .altscreen 1).st .altscreen 1).handled = true ∧
    (setctl_int (setctl_int d .altscreen 1).st .altscreen 1).out = [] ∧
    (∀ (ctl : TickitTermCtl) (v : Int),
      ctl = .altscreen ∨ ctl = .cursorvis ∨ ctl = .mouse →
      (setctl_int (setctl_int d ctl v).st ctl v).out = []) := by
  refine ⟨?_, ?_, ?_, fun ctl v hc => setctl_int_repeat_out d ctl v hc⟩ <;>
    simp [setctl_int, h]

/-- Witness for C8: `setctl_altscreen_twice` on a fresh driver. -/
theorem setctl_altscreen_twice_witness :
    ((setctl_int (new true false false) .altscreen 1).out ++
      (setctl_int (setctl_int (new true false false) .altscreen 1).st
        .altscreen 1).out).count "\x1b[?1049h" = 1 :=
  (setctl_altscreen_twice (new true false false) rfl).1

/-- C1 (divergence): `erasech(70, moveend=0)` without
background-color-erase writes the 70 blanks as a 64-byte chunk plus a
6-byte remainder, but then moves the cursor back only 6 columns
(`ESC[6D`) — the `while` loop has already reduced `count` to the
remainder — whereas moving back by the full original count would be
`ESC[70D` (second conjunct), which is what restoring the original
column requires after 70 columns of overwriting. -/
theorem erasech_residual_move_bug :
    erasech (new false false false) false 70 0
      = [spaces 64, spaces 6, "\x1b[6D"] ∧
    move_rel 0 (-70) = ["\x1b[70D"] := by
  decide

/-- C2 (divergence): `setctl_int(KEYPAD_APP, 1)` on a fresh driver emits
the keypad-application sequence `ESC=` but leaves the whole state — in
particular `mode.keypad` — unchanged, so an immediately repeated
identical request emits `ESC=` again instead of being deduplicated. -/
theorem setctl_keypad_flag_not_updated :
    (setctl_int (new true false false) .keypad_app 1).out = ["\x1b="] ∧
    (setctl_int (new true false false) .keypad_app 1).st = new true false false ∧
    (setctl_int (setctl_int (new true false false) .keypad_app 1).st
      .keypad_app 1).out = ["\x1b="] := by
  decide
